import Mathlib

/-!
Verification development for the CSV batch-processing pipeline
(`src/validator/handler.py`, `src/processor/handler.py`,
`src/validator_processor/handler.py`).

The Python handlers are shallowly embedded as pure Lean functions:
  * file content fetched from object storage is modelled as the stream of
    comma-split lines that `csv.DictReader` would see (`Csv`, a list of rows,
    header first); a failed fetch is `Except.error e` carrying the error text;
  * timestamps (`get_timestamp` / `now_iso`) are passed in as an opaque
    `now : String` per invocation (only their presence matters here);
  * DynamoDB is a map from `jobId` to an optional record; `put_item` replaces
    the whole record, `update_item` sets exactly the named fields (creating a
    partial record when the key is absent, as DynamoDB does);
  * each handler invocation is reified as an `Outcome`: the ordered list of
    status-store writes, the optional SQS send, the S3 `put_object` calls, and
    whether the handler re-raises.
JSON serialisation of the output records is modelled by a deterministic
serialiser (indentation and character escaping abstracted).
-/

/-- Job statuses used across both pipeline implementations. -/
inductive Status
  | VALIDATING
  | PENDING
  | PROCESSING
  | FAILED
  | COMPLETED
  | COMPLETED_WITH_ERRORS
deriving DecidableEq

/-- Terminal statuses per the state machine: FAILED, COMPLETED, COMPLETED_WITH_ERRORS. -/
def Status.isTerminal : Status → Bool
  | .FAILED => true
  | .COMPLETED => true
  | .COMPLETED_WITH_ERRORS => true
  | _ => false

/-- Successful terminal statuses. -/
def Status.isSuccess : Status → Bool
  | .COMPLETED => true
  | .COMPLETED_WITH_ERRORS => true
  | _ => false

/-- File content as `csv.DictReader` sees it: rows of fields, header row first. -/
abbrev Csv := List (List String)

/-- One output record, `{id, value, timestamp}`, string-typed pass-through. -/
structure CsvRecord where
  id : String
  value : String
  timestamp : String
deriving DecidableEq

/-- The persisted job record (DynamoDB item). `none` models both an absent
attribute and an explicit DynamoDB Null; the claims only distinguish
null/absent from present. Field `s3OutputPfx` embeds the source attribute
`s3OutputPrefix`. -/
structure JobRecord where
  status : Status
  s3Source : Option String
  s3OutputPfx : Option String
  rowCount : Option Nat
  errorCount : Option Nat
  startedAt : Option String
  finishedAt : Option String
  message : String
deriving DecidableEq

/-- A field-level `update_item`. Every `update_item` call in the source sets
`status` and `message`; the remaining fields are set only when `some`. -/
structure JobUpdate where
  status : Status
  message : String
  rowCount : Option Nat
  errorCount : Option Nat
  s3OutputPfx : Option String
  finishedAt : Option String
deriving DecidableEq

/-- The SQS message body `{jobId, bucket, key}`. -/
structure QueueMessage where
  jobId : String
  bucket : String
  key : String
deriving DecidableEq

/-- One status-store write: a whole-record `put_item` or a field-level
`update_item`, tagged with the jobId it targets. -/
inductive StoreWrite
  | put (jobId : String) (item : JobRecord)
  | upd (jobId : String) (u : JobUpdate)
deriving DecidableEq

/-- Everything externally visible that one handler invocation does. -/
structure Outcome where
  writes : List StoreWrite
  sent : Option QueueMessage
  puts : List (String × String)
  raised : Bool
deriving DecidableEq

/-- REQUIRED_COLUMNS from the source. -/
def REQUIRED_COLUMNS : List String := ["id", "value", "timestamp"]

/-- Default of the PROCESSED_PREFIX environment variable. -/
def PROCESSED_PFX : String := "processed/"

/-- A single-quote character, used for the Python `repr` of strings. -/
def pyQuote : String := String.singleton (Char.ofNat 39)

/-- Python `repr` of a string (quoting only; escapes not modelled). -/
def pyRepr (s : String) : String := pyQuote ++ s ++ pyQuote

/-- Python `repr` of a list of strings, as interpolated by the f-strings in
the source (for example in the missing-columns message). -/
def pyListRepr (xs : List String) : String :=
  "[" ++ String.intercalate ", " (xs.map pyRepr) ++ "]"

/-- Header row of the parsed file; `reader.fieldnames or []`. -/
def csvHeader : Csv → List String
  | [] => []
  | h :: _ => h

/-- Data rows of the parsed file. -/
def csvRows : Csv → List (List String)
  | [] => []
  | _ :: t => t

/-- `row.get(col)`: the DictReader dict lookup. A column absent from the
header, or a row too short for the column's position, yields `none`
(Python `None`, the DictReader restval). -/
def rowGet (header row : List String) (col : String) : Option String :=
  match header.findIdx? (fun c => c == col) with
  | none => none
  | some i => row.get? i

/-- Python truthiness of `row.get(col)`: false for `None` and for `""`. -/
def truthyOpt : Option String → Bool
  | none => false
  | some s => !(s == "")

/-- Row validity as both implementations test it: every required field is
present and non-empty after lookup by column name. -/
def rowValid (header row : List String) : Bool :=
  REQUIRED_COLUMNS.all (fun c => truthyOpt (rowGet header row c))

/-- The record extracted from a valid row. -/
def mkRecord (header row : List String) : CsvRecord :=
  { id := (rowGet header row "id").getD ""
    value := (rowGet header row "value").getD ""
    timestamp := (rowGet header row "timestamp").getD "" }

/-- Accumulated result of the per-row loop shared by both implementations. -/
structure RowScan where
  rows_seen : Nat
  error_count : Nat
  records : List CsvRecord
deriving DecidableEq

/-- The per-row loop: count every data row, keep valid rows in input order,
count invalid rows without aborting. -/
def processRows (header : List String) : List (List String) → RowScan
  | [] => { rows_seen := 0, error_count := 0, records := [] }
  | row :: rest =>
      let s := processRows header rest
      if rowValid header row then
        { rows_seen := s.rows_seen + 1
          error_count := s.error_count
          records := mkRecord header row :: s.records }
      else
        { rows_seen := s.rows_seen + 1
          error_count := s.error_count + 1
          records := s.records }

/-- Result dictionary of `validate_and_process_csv` in
`src/validator_processor/handler.py`. -/
structure CsvResult where
  ok : Bool
  message : String
  row_count : Nat
  error_count : Nat
  records : List CsvRecord
deriving DecidableEq

/-- `validate_and_process_csv` from `src/validator_processor/handler.py`:
header check first (against the header row only), then the per-row loop. -/
def validate_and_process_csv (input : Csv) : CsvResult :=
  let header := csvHeader input
  let missing := REQUIRED_COLUMNS.filter (fun c => !(header.contains c))
  if missing.isEmpty then
    let s := processRows header (csvRows input)
    { ok := true, message := "Processed"
      row_count := s.rows_seen, error_count := s.error_count, records := s.records }
  else
    { ok := false, message := "Missing required columns: " ++ pyListRepr missing
      row_count := 0, error_count := 0, records := [] }

example : (validate_and_process_csv [["id", "value"], ["1", "2"]]).ok = false := by decide

example :
    validate_and_process_csv [["id", "value", "timestamp"], ["1", "10", "t"], ["", "3", "t"]] =
      { ok := true, message := "Processed", row_count := 2, error_count := 1
        records := [{ id := "1", value := "10", timestamp := "t" }] } := by decide

/-- Characters of a string up to the last occurrence of `sep` removed:
`os.path.basename` keeps the suffix after the last separator. -/
def afterLastSep (sep : Char) (l : List Char) : List Char :=
  (l.reverse.takeWhile (fun c => c != sep)).reverse

/-- `os.path.splitext(...)[0]` on a basename: drop the last extension when a
dot is present. (Python keeps a single leading dot of hidden files; that
corner is not exercised here.) -/
def dropExt (l : List Char) : List Char :=
  if l.contains (Char.ofNat 46) then
    ((l.reverse.dropWhile (fun c => c != Char.ofNat 46)).drop 1).reverse
  else l

/-- `os.path.splitext(os.path.basename(key))[0]`: the job id derived from the
object key. -/
def job_id_of_key (key : String) : String :=
  String.mk (dropExt (afterLastSep (Char.ofNat 47) key.data))

example : job_id_of_key "uploads/data.csv" = "data" := by decide

/-- JSON string literal (escaping abstracted). -/
def jsonStr (s : String) : String := "\"" ++ s ++ "\""

/-- JSON object for one output record. -/
def recordJson (r : CsvRecord) : String :=
  "\x7b" ++ jsonStr "id" ++ ": " ++ jsonStr r.id ++ ", " ++
    jsonStr "value" ++ ": " ++ jsonStr r.value ++ ", " ++
    jsonStr "timestamp" ++ ": " ++ jsonStr r.timestamp ++ "\x7d"

/-- The `json.dumps(records, ...)` body written to the output object. -/
def jsonArray (rs : List CsvRecord) : String :=
  "[" ++ String.intercalate ", " (rs.map recordJson) ++ "]"

/-- S3 key of the converter's output object for a job. -/
def outputKeyOf (jid : String) : String := PROCESSED_PFX ++ jid ++ "/output.json"

/-- An update that sets only status and message (the PROCESSING and PENDING
writes, which leave every other field untouched). -/
def statusMsgUpd (st : Status) (m : String) : JobUpdate :=
  { status := st, message := m, rowCount := none, errorCount := none
    s3OutputPfx := none, finishedAt := none }

/-- An update that sets status, message and finishedAt (the FAILED writes). -/
def failUpd (m now : String) : JobUpdate :=
  { status := .FAILED, message := m, rowCount := none, errorCount := none
    s3OutputPfx := none, finishedAt := some now }

/-- The Validator lambda (`src/validator/handler.py`), as the outcome of one
invocation: create the record in VALIDATING, then fail on fetch error or on
missing required columns, otherwise enqueue and mark PENDING. -/
def validatorHandler (bucket key : String) (fetch : Except String Csv)
    (now : String) : Outcome :=
  let jid := job_id_of_key key
  let createW : StoreWrite := .put jid
    { status := .VALIDATING
      s3Source := some ("s3://" ++ bucket ++ "/" ++ key)
      s3OutputPfx := none, rowCount := none, errorCount := none
      startedAt := some now, finishedAt := none
      message := "Validating CSV structure" }
  match fetch with
  | .error e =>
      { writes := [createW, .upd jid (failUpd ("Could not read file: " ++ e) now)]
        sent := none, puts := [], raised := false }
  | .ok csv =>
      let headers := csvHeader csv
      let missing := REQUIRED_COLUMNS.filter (fun c => !(headers.contains c))
      if missing.isEmpty then
        { writes := [createW, .upd jid (statusMsgUpd .PENDING "Queued for processing")]
          sent := some { jobId := jid, bucket := bucket, key := key }
          puts := [], raised := false }
      else
        { writes := [createW,
            .upd jid (failUpd ("Missing required columns: " ++ pyListRepr missing) now)]
          sent := none, puts := [], raised := false }

/-- The Processor lambda (`src/processor/handler.py`), as the outcome of one
invocation: mark PROCESSING, then on fetch error mark FAILED and re-raise;
otherwise run the row loop, write `output.json`, and finalize — always with
status COMPLETED, the error count carried in `errorCount` and the message. -/
def processorHandler (msg : QueueMessage) (fetch : Except String Csv)
    (now : String) : Outcome :=
  let jid := msg.jobId
  let processingW : StoreWrite := .upd jid (statusMsgUpd .PROCESSING "Converting CSV to JSON")
  match fetch with
  | .error e =>
      { writes := [processingW, .upd jid (failUpd ("Could not read file: " ++ e) now)]
        sent := none, puts := [], raised := true }
  | .ok csv =>
      let header := csvHeader csv
      let scan := processRows header (csvRows csv)
      let row_count := scan.records.length + scan.error_count
      let msgText := "Processed " ++ toString row_count ++ " rows" ++
        (if scan.error_count > 0
          then " (" ++ toString scan.error_count ++ " errors)" else "")
      { writes := [processingW,
          .upd jid
            { status := .COMPLETED, message := msgText
              rowCount := some row_count, errorCount := some scan.error_count
              s3OutputPfx := some (PROCESSED_PFX ++ jid ++ "/")
              finishedAt := some now }]
        sent := none
        puts := [(outputKeyOf jid, jsonArray scan.records)]
        raised := false }

/-- Job id chosen by the monolithic handler: the filename-derived id when the
key is truthy, otherwise a fresh uuid4. -/
def monoJobId (keyOpt : Option String) (freshUuid : String) : String :=
  if truthyOpt keyOpt then job_id_of_key (keyOpt.getD "") else freshUuid

/-- Python str() of an optional value, as an f-string interpolates it. -/
def pyShow : Option String → String
  | none => "None"
  | some s => s

/-- The monolithic handler (`src/validator_processor/handler.py`), as the
outcome of one invocation. Inputs are the post-extraction `bucket` / `key`
(both `none` when the event shape raises inside the extraction `try`), the
uuid4 fallback job id, and the fetch result. Faithful to the source, the
result of `validate_and_process_csv` is used without consulting its `ok`
flag, the output object is written only when at least one valid record
exists, and no path re-raises. -/
def monolithHandler (bucketOpt keyOpt : Option String) (freshUuid : String)
    (fetch : Except String Csv) (now : String) : Outcome :=
  let jid := monoJobId keyOpt freshUuid
  let s3_source : Option String :=
    match keyOpt with
    | some k => some ("s3://" ++ pyShow bucketOpt ++ "/" ++ k)
    | none => none
  let createW : StoreWrite := .put jid
    { status := .VALIDATING, s3Source := s3_source
      s3OutputPfx := none, rowCount := some 0, errorCount := some 0
      startedAt := some now, finishedAt := none, message := "" }
  if !(truthyOpt bucketOpt) || !(truthyOpt keyOpt) then
    { writes := [createW, .upd jid (failUpd "Invalid S3 event payload" now)]
      sent := none, puts := [], raised := false }
  else
    match fetch with
    | .error e =>
        { writes := [createW, .upd jid (failUpd ("Failed to read S3 object: " ++ e) now)]
          sent := none, puts := [], raised := false }
    | .ok csv =>
        let result := validate_and_process_csv csv
        let output_pfx := PROCESSED_PFX ++ jid ++ "/"
        let st : Status :=
          if result.error_count == 0 then .COMPLETED else .COMPLETED_WITH_ERRORS
        { writes := [createW,
            .upd jid
              { status := st, message := result.message
                rowCount := some result.row_count
                errorCount := some result.error_count
                s3OutputPfx := some output_pfx
                finishedAt := some now }]
          sent := none
          puts :=
            if result.row_count > 0 && result.records.length > 0
              then [(output_pfx ++ "output.json", jsonArray result.records)] else []
          raised := false }

/-- Apply a field-level update to an existing record: named fields are set,
everything else is untouched. -/
def applyUpdate (u : JobUpdate) (r : JobRecord) : JobRecord :=
  { status := u.status
    message := u.message
    s3Source := r.s3Source
    startedAt := r.startedAt
    rowCount := match u.rowCount with | some v => some v | none => r.rowCount
    errorCount := match u.errorCount with | some v => some v | none => r.errorCount
    s3OutputPfx := match u.s3OutputPfx with | some v => some v | none => r.s3OutputPfx
    finishedAt := match u.finishedAt with | some v => some v | none => r.finishedAt }

/-- DynamoDB `update_item` on an absent key creates an item holding only the
updated attributes. -/
def updateOnNone (u : JobUpdate) : JobRecord :=
  { status := u.status, message := u.message
    s3Source := none, startedAt := none
    rowCount := u.rowCount, errorCount := u.errorCount
    s3OutputPfx := u.s3OutputPfx, finishedAt := u.finishedAt }

/-- The status store: jobId to optional record. -/
abbrev Store := String → Option JobRecord

/-- Apply one store write. -/
def applyWrite (s : Store) : StoreWrite → Store
  | .put j item => fun k => if k = j then some item else s k
  | .upd j u => fun k =>
      if k = j then
        some (match s j with
          | none => updateOnNone u
          | some r => applyUpdate u r)
      else s k

/-- Apply a sequence of store writes in order. -/
def applyWrites (ws : List StoreWrite) (s : Store) : Store :=
  ws.foldl applyWrite s

/-- The S3 object map for written outputs (key to body). -/
abbrev S3Out := String → Option String

/-- Apply the `put_object` calls of an invocation (overwrite semantics). -/
def applyPuts (ps : List (String × String)) (m : S3Out) : S3Out :=
  ps.foldl (fun m p => fun k => if k = p.1 then some p.2 else m k) m

/-- The shared mutable state the handlers touch: status store and output
objects. -/
structure SysState where
  store : Store
  s3out : S3Out

/-- One triggering event of the system: an upload handled by the split
Validator, a queue delivery handled by the split Processor, or an upload
handled by the monolithic handler. Fetch results and timestamps are carried
on the event, so a sequence of events fixes the whole run. -/
inductive Event
  | upload (bucket key : String) (fetch : Except String Csv) (now : String)
  | deliver (msg : QueueMessage) (fetch : Except String Csv) (now : String)
  | uploadMono (bucketOpt keyOpt : Option String) (freshUuid : String)
      (fetch : Except String Csv) (now : String)

/-- The outcome of the invocation an event triggers. -/
def eventOutcome : Event → Outcome
  | .upload bucket key fetch now => validatorHandler bucket key fetch now
  | .deliver msg fetch now => processorHandler msg fetch now
  | .uploadMono b k u fetch now => monolithHandler b k u fetch now

/-- The job id all of an event's store writes target. -/
def eventJobId : Event → String
  | .upload _ key _ _ => job_id_of_key key
  | .deliver msg _ _ => msg.jobId
  | .uploadMono _ keyOpt u _ _ => monoJobId keyOpt u

/-- Apply an invocation's outcome to the shared state. -/
def applyOutcome (o : Outcome) (s : SysState) : SysState :=
  { store := applyWrites o.writes s.store, s3out := applyPuts o.puts s.s3out }

/-- Run one event. -/
def runEvent (e : Event) (s : SysState) : SysState :=
  applyOutcome (eventOutcome e) s

/-- Run a sequence of events from a state. -/
def runEvents (es : List Event) (s : SysState) : SysState :=
  es.foldl (fun s e => runEvent e s) s

/-- The empty initial state: no records, no output objects. -/
def initState : SysState := { store := fun _ => none, s3out := fun _ => none }

/-- Status of a job in a state, when its record exists. -/
def statusOf (s : SysState) (j : String) : Option Status :=
  (s.store j).map (fun r => r.status)

/-- Target job id of a store write. -/
def writeTarget : StoreWrite → String
  | .put j _ => j
  | .upd j _ => j

/-- Status carried by a store write. -/
def writeStatus : StoreWrite → Status
  | .put _ item => item.status
  | .upd _ u => u.status

/-- Whether a store write sets `finishedAt` to a non-null value. -/
def writeSetsFinished : StoreWrite → Bool
  | .put _ item => item.finishedAt.isSome
  | .upd _ u => u.finishedAt.isSome

/-- Whether a store write sets `s3OutputPrefix` to a non-null value. -/
def writeSetsPfx : StoreWrite → Bool
  | .put _ item => item.s3OutputPfx.isSome
  | .upd _ u => u.s3OutputPfx.isSome

/-- rowCount and errorCount carried by a store write (absent fields `none`). -/
def writeCounts : StoreWrite → Option Nat × Option Nat
  | .put _ item => (item.rowCount, item.errorCount)
  | .upd _ u => (u.rowCount, u.errorCount)

/-- Specification of the shared per-row loop: every data row is counted,
valid rows are kept in order and extracted, and invalid rows are counted
and dropped. -/
theorem processRows_spec (header : List String) (rows : List (List String)) :
    (processRows header rows).rows_seen = rows.length
    ∧ (processRows header rows).records =
        (rows.filter (fun r => rowValid header r)).map (mkRecord header)
    ∧ (processRows header rows).error_count =
        (rows.filter (fun r => !(rowValid header r))).length := by
  induction rows with
  | nil => simp [processRows]
  | cons row rest ih =>
      obtain ⟨h1, h2, h3⟩ := ih
      by_cases h : rowValid header row = true
      · simp [processRows, h, h1, h2, h3, List.filter_cons]
      · simp only [Bool.not_eq_true] at h
        simp [processRows, h, h1, h2, h3, List.filter_cons]

/-- The kept records and the error count partition the data rows. -/
theorem processRows_partition (header : List String) (rows : List (List String)) :
    (processRows header rows).records.length + (processRows header rows).error_count
      = rows.length := by
  induction rows with
  | nil => rfl
  | cons row rest ih =>
      by_cases h : rowValid header row = true
      · simp [processRows, h]
        omega
      · simp only [Bool.not_eq_true] at h
        simp [processRows, h]
        omega

/-- After a field-level update, the record at the targeted key exists and
carries the update's status. -/
theorem status_after_upd (s : Store) (j : String) (u : JobUpdate) :
    ((applyWrite s (.upd j u)) j).map (fun r => r.status) = some u.status := by
  simp only [applyWrite, if_pos rfl]
  cases s j <;> simp [applyUpdate, updateOnNone]

/-- The record-level invariant of claim C8: `finishedAt` is non-null exactly
on terminal statuses. -/
def goodRec (r : JobRecord) : Prop := r.finishedAt.isSome = r.status.isTerminal

/-- The invariant holds of every record in the store. -/
def InvStore (st : Store) : Prop :=
  ∀ j r, st j = some r → goodRec r

/-- A create-then-finalize write pair preserves the invariant when the
created item has no `finishedAt` and the closing update sets `finishedAt`
exactly when its status is terminal. -/
theorem inv_after_put_upd (s : Store) (j : String) (item : JobRecord) (u : JobUpdate)
    (hs : InvStore s) (hitem : item.finishedAt = none)
    (hu : u.finishedAt.isSome = u.status.isTerminal) :
    InvStore (applyWrites [.put j item, .upd j u] s) := by
  intro k r hk
  by_cases hkj : k = j
  · subst hkj
    have hk2 : applyUpdate u item = r := by
      simpa [applyWrites, applyWrite] using hk
    subst hk2
    unfold goodRec applyUpdate
    cases hf : u.finishedAt with
    | some v => simpa [hf] using hu
    | none =>
        simp only [hf]
        simp [hitem]
        simpa [hf] using hu.symm
  · have hk2 : s k = some r := by
      simpa [applyWrites, applyWrite, hkj] using hk
    exact hs k r hk2

/-- A mark-then-finalize update pair preserves the invariant when the closing
update has a terminal status and sets `finishedAt`. -/
theorem inv_after_upd_upd (s : Store) (j : String) (u1 u2 : JobUpdate)
    (hs : InvStore s) (hf : u2.finishedAt.isSome = true)
    (ht : u2.status.isTerminal = true) :
    InvStore (applyWrites [.upd j u1, .upd j u2] s) := by
  intro k r hk
  by_cases hkj : k = j
  · subst hkj
    cases hfv : u2.finishedAt with
    | none => rw [hfv] at hf; simp at hf
    | some v =>
        have hk2 :
            applyUpdate u2 (match s k with
              | none => updateOnNone u1
              | some r => applyUpdate u1 r) = r := by
          simpa [applyWrites, applyWrite] using hk
        subst hk2
        unfold goodRec applyUpdate
        simp [hfv, ht]
  · have hk2 : s k = some r := by
      simpa [applyWrites, applyWrite, hkj] using hk
    exact hs k r hk2

/-- The success status the monolith finalizes with is always terminal. -/
theorem completion_terminal (c : Bool) :
    (if c then Status.COMPLETED else Status.COMPLETED_WITH_ERRORS).isTerminal = true := by
  cases c <;> rfl

/-- Every single invocation preserves the record-level invariant. -/
theorem inv_step (e : Event) (s : SysState) (hs : InvStore s.store) :
    InvStore (runEvent e s).store := by
  cases e with
  | upload bucket key fetch now =>
      cases fetch with
      | error err => refine inv_after_put_upd _ _ _ _ hs ?_ ?_ <;> rfl
      | ok csv =>
          show InvStore (applyWrites (validatorHandler bucket key (.ok csv) now).writes s.store)
          simp only [validatorHandler]
          split
          · refine inv_after_put_upd _ _ _ _ hs ?_ ?_ <;> rfl
          · refine inv_after_put_upd _ _ _ _ hs ?_ ?_ <;> rfl
  | deliver msg fetch now =>
      cases fetch with
      | error err => refine inv_after_upd_upd _ _ _ _ hs ?_ ?_ <;> rfl
      | ok csv => refine inv_after_upd_upd _ _ _ _ hs ?_ ?_ <;> rfl
  | uploadMono b k u fetch now =>
      show InvStore (applyWrites (monolithHandler b k u fetch now).writes s.store)
      simp only [monolithHandler]
      split
      · refine inv_after_put_upd _ _ _ _ hs ?_ ?_ <;> rfl
      · cases fetch with
        | error err => refine inv_after_put_upd _ _ _ _ hs ?_ ?_ <;> rfl
        | ok csv =>
            refine inv_after_put_upd _ _ _ _ hs rfl ?_
            show (some now).isSome = Status.isTerminal _
            split <;> rfl

/-- The invariant holds after any event sequence from an invariant state. -/
theorem inv_run (es : List Event) (s : SysState) (hs : InvStore s.store) :
    InvStore (runEvents es s).store := by
  induction es generalizing s with
  | nil => exact hs
  | cons e rest ih => exact ih _ (inv_step e s hs)

/-- Scenario file: valid header, one fully valid data row. -/
def exCsvGood : Csv := [["id", "value", "timestamp"], ["1", "10", "t"]]

/-- Scenario file: valid header, one data row with an empty `value`. -/
def exCsvBadRow : Csv := [["id", "value", "timestamp"], ["1", "", "t"]]

/-- Scenario file: header missing the `timestamp` column. -/
def exCsvNoTs : Csv := [["id", "value"], ["1", "2"]]

/-- The queue message the Validator sends for `uploads/data.csv`. -/
def exMsg : QueueMessage := { jobId := "data", bucket := "b", key := "uploads/data.csv" }

/-- Upload of the valid file. -/
def exUpload : Event := .upload "b" "uploads/data.csv" (.ok exCsvGood) "T1"

/-- Queue delivery for the valid file. -/
def exDeliver : Event := .deliver exMsg (.ok exCsvGood) "T2"

/-- A later upload of the same file (same derived job id). -/
def exUpload3 : Event := .upload "b" "uploads/data.csv" (.ok exCsvGood) "T3"

/-- Queue delivery for the file whose single row has an empty `value`. -/
def exDeliverBadRow : Event := .deliver exMsg (.ok exCsvBadRow) "T2"

/-- Monolithic invocation whose object fetch fails. -/
def exMonoFetchFail : Event :=
  .uploadMono (some "b") (some "uploads/data.csv") "u" (.error "AccessDenied") "T"

/-- C1 (corrected): the original claim fails. After the upload and delivery
for `uploads/data.csv` the record is in the terminal status COMPLETED, yet a
second upload of the same file starts by writing VALIDATING over it (the
Validator's unconditional `put_item`), and redelivering the same queue
message writes PROCESSING over it (the Processor's unconditional first
`update_item`): a terminal record does move back to non-terminal statuses. -/
theorem C1_counterexample :
    statusOf (runEvents [exUpload, exDeliver] initState) "data" = some Status.COMPLETED
    ∧ Status.COMPLETED.isTerminal = true
    ∧ (eventOutcome exUpload3).writes.map (fun w => (writeTarget w, writeStatus w)) =
        [("data", Status.VALIDATING), ("data", Status.PENDING)]
    ∧ (eventOutcome exDeliver).writes.map (fun w => (writeTarget w, writeStatus w)) =
        [("data", Status.PROCESSING), ("data", Status.COMPLETED)] := by
  decide

/-- C1 (amended): once a record is terminal, the only operations that write a
different status to it are a new upload event for the same derived job id
(which recreates the record in VALIDATING) and a queue delivery for that job
id (which rewrites PROCESSING before re-finalizing); every store write of an
invocation targets the triggering event's job id, no write that precedes the
final write of an invocation carries a terminal status, and the first write
of an invocation is the VALIDATING create (uploads) or the PROCESSING mark
(deliveries). -/
theorem C1_terminal_only_retrigger (e : Event) :
    (∀ w ∈ (eventOutcome e).writes, writeTarget w = eventJobId e)
    ∧ (∀ w ∈ (eventOutcome e).writes.dropLast, (writeStatus w).isTerminal = false)
    ∧ (eventOutcome e).writes.head?.map writeStatus =
        some (match e with
          | .deliver _ _ _ => Status.PROCESSING
          | _ => Status.VALIDATING) := by
  cases e with
  | upload bucket key fetch now =>
      cases fetch with
      | error err =>
          simp [eventOutcome, validatorHandler, eventJobId, writeTarget, writeStatus,
            Status.isTerminal]
      | ok csv =>
          simp only [eventOutcome, validatorHandler]
          split <;>
            simp [eventJobId, writeTarget, writeStatus, Status.isTerminal]
  | deliver msg fetch now =>
      cases fetch with
      | error err =>
          simp [eventOutcome, processorHandler, eventJobId, writeTarget, writeStatus,
            statusMsgUpd, Status.isTerminal]
      | ok csv =>
          simp [eventOutcome, processorHandler, eventJobId, writeTarget, writeStatus,
            statusMsgUpd, Status.isTerminal]
  | uploadMono b k u fetch now =>
      simp only [eventOutcome, monolithHandler]
      split
      · simp [eventJobId, writeTarget, writeStatus, Status.isTerminal]
      · cases fetch with
        | error err =>
            simp [eventJobId, writeTarget, writeStatus, Status.isTerminal]
        | ok csv =>
            simp [eventJobId, writeTarget, writeStatus, Status.isTerminal]

/-- C1 (witness for the amended theorem): instantiated at the delivery event
for `uploads/data.csv`; its first write, the PROCESSING mark, is in the
dropped prefix of the write list and is non-terminal. -/
theorem C1_witness :
    (writeStatus (.upd "data" (statusMsgUpd .PROCESSING "Converting CSV to JSON"))).isTerminal
      = false :=
  (C1_terminal_only_retrigger exDeliver).2.1
    (.upd "data" (statusMsgUpd .PROCESSING "Converting CSV to JSON")) (by decide)

/-- C2 (corrected): the original claim fails. Delivering the message for a
file whose single data row is invalid (empty `value`) finalizes the job in
the successful terminal status COMPLETED with `s3OutputPrefix` set to
`processed/data/`, although zero valid records were written (the output
array is empty): a non-null `outputPrefix` does not imply at least one valid
record. -/
theorem C2_counterexample :
    (eventOutcome exDeliverBadRow).writes.getLast? =
      some (.upd "data"
        { status := .COMPLETED, message := "Processed 1 rows (1 errors)"
          rowCount := some 1, errorCount := some 1
          s3OutputPfx := some "processed/data/", finishedAt := some "T2" })
    ∧ Status.COMPLETED.isSuccess = true
    ∧ (processRows ["id", "value", "timestamp"] [["1", "", "t"]]).records = []
    ∧ (eventOutcome exDeliverBadRow).puts = [(outputKeyOf "data", jsonArray [])] := by
  decide

/-- C2 (amended): a store write sets `s3OutputPrefix` to a non-null value
exactly when the write's status is a successful terminal status (COMPLETED
or COMPLETED_WITH_ERRORS), irrespective of how many valid records exist; in
particular no FAILED write and no non-terminal write sets it. (Because
non-final writes leave the field untouched, a redelivered message can expose
a stale value until it re-finalizes.) -/
theorem C2_pfx_iff_success (e : Event) :
    ∀ w ∈ (eventOutcome e).writes, writeSetsPfx w = (writeStatus w).isSuccess := by
  cases e with
  | upload bucket key fetch now =>
      cases fetch with
      | error err =>
          simp [eventOutcome, validatorHandler, writeSetsPfx, writeStatus, failUpd,
            Status.isSuccess]
      | ok csv =>
          simp only [eventOutcome, validatorHandler]
          split <;>
            simp [writeSetsPfx, writeStatus, failUpd, statusMsgUpd, Status.isSuccess]
  | deliver msg fetch now =>
      cases fetch with
      | error err =>
          simp [eventOutcome, processorHandler, writeSetsPfx, writeStatus, failUpd,
            statusMsgUpd, Status.isSuccess]
      | ok csv =>
          simp [eventOutcome, processorHandler, writeSetsPfx, writeStatus, failUpd,
            statusMsgUpd, Status.isSuccess]
  | uploadMono b k u fetch now =>
      simp only [eventOutcome, monolithHandler]
      split
      · simp [writeSetsPfx, writeStatus, failUpd, Status.isSuccess]
      · cases fetch with
        | error err => simp [writeSetsPfx, writeStatus, failUpd, Status.isSuccess]
        | ok csv =>
            by_cases hc : (validate_and_process_csv csv).error_count = 0 <;>
              simp [hc, writeSetsPfx, writeStatus, failUpd, Status.isSuccess]

/-- C2 (witness for the amended theorem): the Processor's finalizing write
for `uploads/data.csv` sets `s3OutputPrefix` and has a successful status. -/
theorem C2_witness :
    writeSetsPfx (.upd "data"
        { status := .COMPLETED, message := "Processed 1 rows"
          rowCount := some 1, errorCount := some 0
          s3OutputPfx := some "processed/data/", finishedAt := some "T2" })
      = Status.isSuccess (writeStatus (.upd "data"
        { status := .COMPLETED, message := "Processed 1 rows"
          rowCount := some 1, errorCount := some 0
          s3OutputPfx := some "processed/data/", finishedAt := some "T2" })) :=
  C2_pfx_iff_success exDeliver _ (by decide)

/-- C3 (corrected): the original claim fails for the split Processor. On the
file whose single row is invalid it finalizes with status COMPLETED while
recording `errorCount = 1`, not COMPLETED_WITH_ERRORS. -/
theorem C3_counterexample :
    (eventOutcome exDeliverBadRow).writes.getLast?.map writeStatus = some Status.COMPLETED
    ∧ (eventOutcome exDeliverBadRow).writes.getLast?.map writeCounts = some (some 1, some 1)
    ∧ Status.COMPLETED ≠ Status.COMPLETED_WITH_ERRORS := by
  decide

/-- C3 (amended): the monolithic converter finalizes a successfully
processed file with COMPLETED when `errorCount == 0` and
COMPLETED_WITH_ERRORS when `errorCount > 0`; the split Processor always
finalizes with COMPLETED, carrying the error count only in `errorCount` and
the message. -/
theorem C3_final_status (msg : QueueMessage) (csv : Csv) (now : String)
    (b k u : String) (hb : b ≠ "") (hk : k ≠ "") :
    (eventOutcome (.deliver msg (.ok csv) now)).writes.getLast?.map writeStatus =
      some Status.COMPLETED
    ∧ (eventOutcome (.uploadMono (some b) (some k) u (.ok csv) now)).writes.getLast?.map
        writeStatus =
      some (if (validate_and_process_csv csv).error_count = 0
        then Status.COMPLETED else Status.COMPLETED_WITH_ERRORS) := by
  constructor
  · simp [eventOutcome, processorHandler, writeStatus]
  · simp [eventOutcome, monolithHandler, truthyOpt, hb, hk, writeStatus]

/-- C3 (witness for the amended theorem): instantiated at the delivery and
monolithic upload of the valid one-row file. -/
theorem C3_witness :
    ((eventOutcome (.deliver exMsg (.ok exCsvGood) "T2")).writes.getLast?.map writeStatus =
      some Status.COMPLETED)
    ∧ ((eventOutcome (.uploadMono (some "b") (some "uploads/data.csv") "u"
          (.ok exCsvGood) "T2")).writes.getLast?.map writeStatus =
      some (if (validate_and_process_csv exCsvGood).error_count = 0
        then Status.COMPLETED else Status.COMPLETED_WITH_ERRORS)) :=
  C3_final_status exMsg exCsvGood "T2" "b" "uploads/data.csv" "u"
    (by decide) (by decide)

/-- C4 (code bug): on the file whose header is `id,value` the validation
routine of the monolithic handler reports the structural failure with the
exact missing column list, but the handler never consults the `ok` flag of
`validate_and_process_csv`, so instead of transitioning the job to FAILED it
finalizes it as COMPLETED with `s3OutputPrefix` set and the failure text as
its message. (The split Validator does transition this file to FAILED.) -/
theorem C4_bug_eval :
    (validate_and_process_csv exCsvNoTs).ok = false
    ∧ (validate_and_process_csv exCsvNoTs).message =
        "Missing required columns: " ++ pyListRepr ["timestamp"]
    ∧ (eventOutcome (.uploadMono (some "b") (some "uploads/data.csv") "u"
          (.ok exCsvNoTs) "T")).writes.getLast? =
        some (.upd "data"
          { status := .COMPLETED
            message := "Missing required columns: " ++ pyListRepr ["timestamp"]
            rowCount := some 0, errorCount := some 0
            s3OutputPfx := some "processed/data/", finishedAt := some "T" })
    ∧ (eventOutcome (.upload "b" "uploads/data.csv" (.ok exCsvNoTs) "T")).writes.getLast? =
        some (.upd "data"
          (failUpd ("Missing required columns: " ++ pyListRepr ["timestamp"]) "T"))
    ∧ (eventOutcome (.upload "b" "uploads/data.csv" (.ok exCsvNoTs) "T")).sent = none := by
  decide

/-- C5 (confirmed): for every structurally valid input, the algorithm's
`row_count` equals the number of output records plus `error_count`,
`error_count` is exactly the number of invalid data rows (a row being valid
iff every required field is present and non-empty after lookup by column
name, which is what `rowValid` evaluates), the output is exactly the valid
rows, extracted in input order, and the split Processor's
`len(records) + error_count` equals the total number of data rows. -/
theorem C5_counts (input : Csv) (h : (validate_and_process_csv input).ok = true) :
    (validate_and_process_csv input).row_count =
        (validate_and_process_csv input).records.length +
          (validate_and_process_csv input).error_count
    ∧ (validate_and_process_csv input).error_count =
        ((csvRows input).filter (fun row => !(rowValid (csvHeader input) row))).length
    ∧ (validate_and_process_csv input).records =
        ((csvRows input).filter (fun row => rowValid (csvHeader input) row)).map
          (mkRecord (csvHeader input))
    ∧ (processRows (csvHeader input) (csvRows input)).records.length +
        (processRows (csvHeader input) (csvRows input)).error_count
          = (csvRows input).length := by
  obtain ⟨h1, h2, h3⟩ := processRows_spec (csvHeader input) (csvRows input)
  have h4 := processRows_partition (csvHeader input) (csvRows input)
  unfold validate_and_process_csv at h ⊢
  dsimp only at h ⊢
  split at h
  case isTrue hcond =>
    rw [if_pos hcond]
    dsimp only
    exact ⟨by rw [h1, ← h4], h3, h2, h4⟩
  case isFalse hcond => simp at h

/-- C5 (witness): the count identity evaluated on the valid one-row file. -/
theorem C5_witness :
    (validate_and_process_csv exCsvGood).row_count =
      (validate_and_process_csv exCsvGood).records.length +
        (validate_and_process_csv exCsvGood).error_count :=
  (C5_counts exCsvGood (by decide)).1

/-- C6 (confirmed): the conversion algorithm is a pure function of the
fetched content — two Converter invocations on equal content, regardless of
their timestamps, produce equal `validate_and_process_csv` results, equal
output-object writes, equal per-write (rowCount, errorCount) pairs and equal
status sequences. -/
theorem C6_deterministic (input1 input2 : Csv) (h : input1 = input2)
    (msg : QueueMessage) (now1 now2 : String) :
    validate_and_process_csv input1 = validate_and_process_csv input2
    ∧ (eventOutcome (.deliver msg (.ok input1) now1)).puts =
        (eventOutcome (.deliver msg (.ok input2) now2)).puts
    ∧ (eventOutcome (.deliver msg (.ok input1) now1)).writes.map writeCounts =
        (eventOutcome (.deliver msg (.ok input2) now2)).writes.map writeCounts
    ∧ (eventOutcome (.deliver msg (.ok input1) now1)).writes.map writeStatus =
        (eventOutcome (.deliver msg (.ok input2) now2)).writes.map writeStatus := by
  subst h
  exact ⟨rfl, rfl, rfl, rfl⟩

/-- C6 (witness): instantiated at the valid one-row file. -/
theorem C6_witness :
    validate_and_process_csv exCsvGood = validate_and_process_csv exCsvGood :=
  (C6_deterministic exCsvGood exCsvGood rfl exMsg "T1" "T2").1

/-- Idempotence helper: overwriting an object with the same body leaves the
object map unchanged at every key. -/
theorem applyPuts_single_idem (p : String × String) (m : S3Out) (k : String) :
    applyPuts [p] (applyPuts [p] m) k = applyPuts [p] m k := by
  by_cases hk : k = p.1 <;> simp [applyPuts, hk]

/-- The Converter always leaves the delivered job's record with the status of
its final update: FAILED on fetch failure, COMPLETED otherwise. -/
theorem statusOf_runEvent_deliver (msg : QueueMessage) (fetch : Except String Csv)
    (now : String) (s : SysState) :
    statusOf (runEvent (.deliver msg fetch now) s) msg.jobId =
      some (match fetch with | .error _ => Status.FAILED | .ok _ => Status.COMPLETED) := by
  cases fetch with
  | error e => exact status_after_upd _ _ _
  | ok csv => exact status_after_upd _ _ _

/-- C7 (confirmed): delivering the same Converter message twice against the
same fetch result yields the same (terminal) status for the job as
delivering it once, and leaves every output object — in particular the job's
`output.json` — byte-identical to the single delivery. -/
theorem C7_idempotent (msg : QueueMessage) (fetch : Except String Csv)
    (now1 now2 : String) (s : SysState) :
    statusOf (runEvent (.deliver msg fetch now2) (runEvent (.deliver msg fetch now1) s))
        msg.jobId =
      statusOf (runEvent (.deliver msg fetch now1) s) msg.jobId
    ∧ ∀ k,
        (runEvent (.deliver msg fetch now2) (runEvent (.deliver msg fetch now1) s)).s3out k
          = (runEvent (.deliver msg fetch now1) s).s3out k := by
  constructor
  · rw [statusOf_runEvent_deliver, statusOf_runEvent_deliver]
  · intro k
    cases fetch with
    | error e => rfl
    | ok csv => exact applyPuts_single_idem _ _ k

/-- C8 (confirmed): after any sequence of Validator, Processor and
monolithic invocations starting from an empty store, every job record has a
non-null `finishedAt` exactly when its status is terminal; moreover, at the
level of single writes, a write sets `finishedAt` to a non-null value
exactly when the status it carries is terminal. -/
theorem C8_finished_iff_terminal :
    (∀ (events : List Event) (j : String) (r : JobRecord),
        (runEvents events initState).store j = some r →
        r.finishedAt.isSome = r.status.isTerminal)
    ∧ ∀ (e : Event), ∀ w ∈ (eventOutcome e).writes,
        writeSetsFinished w = (writeStatus w).isTerminal := by
  constructor
  · intro events j r h
    exact inv_run events initState (fun j r h => Option.noConfusion h) j r h
  · intro e
    cases e with
    | upload bucket key fetch now =>
        cases fetch with
        | error err =>
            simp [eventOutcome, validatorHandler, writeSetsFinished, writeStatus, failUpd,
              Status.isTerminal]
        | ok csv =>
            simp only [eventOutcome, validatorHandler]
            split <;>
              simp [writeSetsFinished, writeStatus, failUpd, statusMsgUpd, Status.isTerminal]
    | deliver msg fetch now =>
        cases fetch with
        | error err =>
            simp [eventOutcome, processorHandler, writeSetsFinished, writeStatus, failUpd,
              statusMsgUpd, Status.isTerminal]
        | ok csv =>
            simp [eventOutcome, processorHandler, writeSetsFinished, writeStatus, failUpd,
              statusMsgUpd, Status.isTerminal]
    | uploadMono b k u fetch now =>
        simp only [eventOutcome, monolithHandler]
        split
        · simp [writeSetsFinished, writeStatus, failUpd, Status.isTerminal]
        · cases fetch with
          | error err => simp [writeSetsFinished, writeStatus, failUpd, Status.isTerminal]
          | ok csv =>
              by_cases hc : (validate_and_process_csv csv).error_count = 0 <;>
                simp [hc, writeSetsFinished, writeStatus, failUpd, Status.isTerminal]

/-- The record the Validator leaves for `uploads/data.csv` after a clean
validation: PENDING, not yet finished. -/
def exPendingRec : JobRecord :=
  { status := .PENDING, s3Source := some "s3://b/uploads/data.csv"
    s3OutputPfx := none, rowCount := none, errorCount := none
    startedAt := some "T1", finishedAt := none, message := "Queued for processing" }

/-- C8 (witness): the invariant evaluated after the upload of the valid
file. -/
theorem C8_witness :
    ((runEvents [exUpload] initState).store "data" = some exPendingRec)
    ∧ exPendingRec.finishedAt.isSome = exPendingRec.status.isTerminal :=
  ⟨by decide, C8_finished_iff_terminal.1 [exUpload] "data" exPendingRec (by decide)⟩

/-- C9 (corrected): the original claim fails for the monolithic handler. On
a fetch failure it writes FAILED with `finishedAt` and the failure message,
but then returns normally instead of re-raising, so no redelivery or retry
is signalled. -/
theorem C9_counterexample :
    (eventOutcome exMonoFetchFail).raised = false
    ∧ (eventOutcome exMonoFetchFail).writes.getLast? =
        some (.upd "data" (failUpd "Failed to read S3 object: AccessDenied" "T")) := by
  decide

/-- C9 (amended): on a fetch failure the split Processor transitions the job
to FAILED with `finishedAt` set and a message recording the failure and then
re-raises; the monolithic handler performs the same FAILED transition but
returns normally, without propagating the failure. -/
theorem C9_fetch_failure (msg : QueueMessage) (e now b k u : String)
    (hb : b ≠ "") (hk : k ≠ "") :
    (eventOutcome (.deliver msg (.error e) now)).writes.getLast? =
        some (.upd msg.jobId (failUpd ("Could not read file: " ++ e) now))
    ∧ (eventOutcome (.deliver msg (.error e) now)).raised = true
    ∧ (eventOutcome (.uploadMono (some b) (some k) u (.error e) now)).writes.getLast? =
        some (.upd (job_id_of_key k) (failUpd ("Failed to read S3 object: " ++ e) now))
    ∧ (eventOutcome (.uploadMono (some b) (some k) u (.error e) now)).raised = false := by
  refine ⟨rfl, rfl, ?_, ?_⟩
  · simp [eventOutcome, monolithHandler, truthyOpt, hb, hk, monoJobId]
  · simp [eventOutcome, monolithHandler, truthyOpt, hb, hk]

/-- C9 (witness for the amended theorem): instantiated at a concrete failed
fetch in both handlers. -/
theorem C9_witness :
    (eventOutcome (.deliver exMsg (.error "AccessDenied") "T")).raised = true :=
  (C9_fetch_failure exMsg "AccessDenied" "T" "b" "uploads/data.csv" "u"
    (by decide) (by decide)).2.1

/-- C10 (confirmed): when neither a bucket nor a key can be extracted from
the triggering event, the monolithic handler still creates a job record —
keyed by the fresh uuid4 string instead of a filename-derived id — in status
VALIDATING, and immediately finalizes it as FAILED with `finishedAt` set and
the message "Invalid S3 event payload"; it sends no queue message, writes no
output object, raises nothing, and its store writes are the same whatever
the fetch result would have been (no fetch is attempted). -/
theorem C10_invalid_payload (u now : String) (fetch : Except String Csv) :
    (eventOutcome (.uploadMono none none u fetch now)).writes =
      [StoreWrite.put u
          { status := .VALIDATING, s3Source := none, s3OutputPfx := none
            rowCount := some 0, errorCount := some 0, startedAt := some now
            finishedAt := none, message := "" },
        StoreWrite.upd u (failUpd "Invalid S3 event payload" now)]
    ∧ (eventOutcome (.uploadMono none none u fetch now)).sent = none
    ∧ (eventOutcome (.uploadMono none none u fetch now)).puts = []
    ∧ (eventOutcome (.uploadMono none none u fetch now)).raised = false := by
  exact ⟨rfl, rfl, rfl, rfl⟩
